import Mathlib

/-!
Verification of the heic2avif-py conversion service.

Shallow embedding of `app/converter.py` and `app/main.py`.

The converter invokes three external operations whose outcomes are not
determined by the program itself: the `avifenc` subprocess, the `magick`
subprocess and the Pillow decode/save step.  These are modelled by an
oracle `Env : Nat → CallResult` giving the outcome of the n-th external
invocation performed while handling one request.  Each conversion function
threads an invocation counter `k` and appends to an event trace recording
scratch-directory lifecycle, strategy entries, file writes and external
invocations.  File writes into the scratch directory are assumed to
succeed (the oracle covers only the external operations, which are the
failure points the source guards with try/except).
-/

namespace Heic2Avif

attribute [local semireducible] Rat.mul Rat.add Rat.sub Rat.inv

/-- Byte sequences (`bytes` in the source) as lists of byte values. -/
abbrev Bytes := List Nat

/-- Which external operation an invocation was. -/
inductive CallKind
  | avifenc
  | magick
  | pillowOpen
deriving DecidableEq

/-- Outcome of one external invocation.
`exn msg` models the invocation itself raising an exception (for a
subprocess: e.g. the binary being absent; for Pillow: a decode failure);
`ret code stderr out` models a completed subprocess with the given return
code and stderr, `out` being the content of the output file it produced
(`none` when it created no output file).  For the Pillow decode/save step
a `ret` outcome simply means the intermediate JPEG was produced. -/
inductive CallResult
  | exn (msg : String)
  | ret (code : Int) (stderr : String) (out : Option Bytes)
deriving DecidableEq

/-- Oracle: outcome of the n-th external invocation of one request. -/
abbrev Env := Nat → CallResult

/-- The three conversion strategies of the cascade. -/
inductive Strategy
  | direct
  | pillow
  | magick
deriving DecidableEq

/-- Observable events of one request: scratch-directory creation/removal,
entry into a strategy (with the directory it operates in), a file write
into a directory, and an external invocation (with its oracle index and
directory). -/
inductive Event
  | dirCreate (d : Nat)
  | dirRemove (d : Nat)
  | strat (s : Strategy) (d : Nat)
  | write (d : Nat) (file : String) (content : Bytes)
  | call (c : CallKind) (idx : Nat) (d : Nat)
deriving DecidableEq

deriving instance DecidableEq for Except

/-- Result of a conversion function: its outcome (returned bytes or the
message of the exception it raises), the invocation counter afterwards,
and the events it produced. -/
structure ConvResult where
  outcome : Except String Bytes
  calls : Nat
  trace : List Event
deriving DecidableEq

/-- Python `str.lower()`.  The filenames and suffixes this service
compares are ASCII, where Python's case folding agrees with
`Char.toLower`. -/
def pyLower (s : String) : String := ⟨s.data.map Char.toLower⟩

/-- Python `s.endswith(t)`. -/
def pyEndsWith (s t : String) : Bool := t.data.isSuffixOf s.data

/-- Input file name chosen by the converter: `input.heif` when the original
filename ends with `.heif` case-insensitively, else `input.heic`
(converter.py lines 29-32 and 154-158). -/
def inputName (original_filename : String) : String :=
  if pyEndsWith (pyLower original_filename) ".heif" then "input.heif" else "input.heic"

/-- `str(e)` for the exception live in the `except` block of
`convert_heic_to_avif_imagemagick`, as a function of the outcome of the
`magick` invocation: the message of the invocation's own exception, the
`RuntimeError` raised on a non-zero exit code, the `FileNotFoundError`
from reading a missing output file (its path component is elided), or —
when the process exited 0 and produced an output file, which errors only
for a zero-length input — the `ZeroDivisionError` raised by the
compression-ratio computation at converter.py line 184. -/
def failureReason : CallResult → String
  | .exn m => m
  | .ret code stderr out =>
      if code ≠ 0 then "ImageMagick conversion failed: " ++ stderr
      else
        match out with
        | none => "[Errno 2] No such file or directory"
        | some _ => "division by zero"

/-- The aggregated error raised at converter.py line 193. -/
def allFailMsg (r : CallResult) : String :=
  "All conversion methods failed. Last error: " ++ failureReason r

/-- The outcome of `convert_heic_to_avif_imagemagick` as a function of its
input bytes and the outcome of its `magick` invocation: the output bytes
when the process exits 0, the output file exists and the input is
non-empty; the aggregated error otherwise — for a zero-length input the
compression-ratio computation at converter.py line 184 raises
`ZeroDivisionError` inside the try block even after a successful encode. -/
def magickResult (heic_data : Bytes) (c : CallResult) : Except String Bytes :=
  match c with
  | .ret code _ (some bs) =>
      if code = 0 then
        if heic_data.length = 0 then .error (allFailMsg c) else .ok bs
      else .error (allFailMsg c)
  | c' => .error (allFailMsg c')

/-- Shallow embedding of `convert_heic_to_avif_imagemagick`
(converter.py lines 148-193).  `k` is the invocation counter, `d` the
scratch directory handed down by the caller (the function does not create
one of its own).  It writes the input file, runs `magick` once, and either
returns the output bytes (exit 0, output present, non-empty input) or
raises the aggregated `RuntimeError` built from the failure encountered
inside its try block: the subprocess's own exception, the non-zero-exit
`RuntimeError`, the `FileNotFoundError` from a missing output file, or —
for a zero-length input — the `ZeroDivisionError` raised by the
compression-ratio computation at line 184 after a successful encode. -/
def convert_heic_to_avif_imagemagick (env : Env) (heic_data : Bytes)
    (original_filename : String) (k d : Nat) : ConvResult :=
  let ev : List Event :=
    [.strat .magick d, .write d (inputName original_filename) heic_data,
     .call .magick k d]
  match env k with
  | .exn m => ⟨.error (allFailMsg (.exn m)), k + 1, ev⟩
  | .ret code stderr out =>
      if code ≠ 0 then ⟨.error (allFailMsg (.ret code stderr out)), k + 1, ev⟩
      else
        match out with
        | none => ⟨.error (allFailMsg (.ret code stderr none)), k + 1, ev⟩
        | some bs =>
            if heic_data.length = 0 then
              ⟨.error (allFailMsg (.ret code stderr (some bs))), k + 1, ev⟩
            else ⟨.ok bs, k + 1, ev⟩

/-- Shallow embedding of `convert_heic_to_avif_pillow_fallback`
(converter.py lines 86-146).  It reuses the caller's scratch directory
`d`, always writes `input.heic`, attempts Pillow decode+JPEG save (one
oracle consultation), then `avifenc` on the intermediate JPEG.  A non-zero
`avifenc` exit code triggers `convert_heic_to_avif_imagemagick` from
inside the try block, so when that call raises, the except handler at line
143 invokes `convert_heic_to_avif_imagemagick` a second time.  A raised
exception (Pillow decode, subprocess failure, reading a missing output
file, or — for a zero-length input — the `ZeroDivisionError` of the
compression-ratio computation at line 136 after a successful encode)
triggers a single ImageMagick call from the except handler. -/
def convert_heic_to_avif_pillow_fallback (env : Env) (heic_data : Bytes)
    (original_filename : String) (k d : Nat) : ConvResult :=
  let pre : List Event := [.strat .pillow d, .write d "input.heic" heic_data]
  match env k with
  | .exn _ =>
      let r := convert_heic_to_avif_imagemagick env heic_data original_filename (k + 1) d
      ⟨r.outcome, r.calls, pre ++ (.call .pillowOpen k d :: r.trace)⟩
  | .ret _ _ _ =>
      match env (k + 1) with
      | .exn _ =>
          let r := convert_heic_to_avif_imagemagick env heic_data original_filename (k + 2) d
          ⟨r.outcome, r.calls,
           pre ++ (.call .pillowOpen k d :: .call .avifenc (k + 1) d :: r.trace)⟩
      | .ret code _ out =>
          if code ≠ 0 then
            let r1 := convert_heic_to_avif_imagemagick env heic_data original_filename (k + 2) d
            match r1.outcome with
            | .ok bs =>
                ⟨.ok bs, r1.calls,
                 pre ++ (.call .pillowOpen k d :: .call .avifenc (k + 1) d :: r1.trace)⟩
            | .error _ =>
                let r2 := convert_heic_to_avif_imagemagick env heic_data original_filename r1.calls d
                ⟨r2.outcome, r2.calls,
                 pre ++ (.call .pillowOpen k d :: .call .avifenc (k + 1) d ::
                   (r1.trace ++ r2.trace))⟩
          else
            match out with
            | none =>
                let r := convert_heic_to_avif_imagemagick env heic_data original_filename (k + 2) d
                ⟨r.outcome, r.calls,
                 pre ++ (.call .pillowOpen k d :: .call .avifenc (k + 1) d :: r.trace)⟩
            | some bs =>
                if heic_data.length = 0 then
                  let r := convert_heic_to_avif_imagemagick env heic_data original_filename
                    (k + 2) d
                  ⟨r.outcome, r.calls,
                   pre ++ (.call .pillowOpen k d :: .call .avifenc (k + 1) d :: r.trace)⟩
                else
                  ⟨.ok bs, k + 2,
                   pre ++ [.call .pillowOpen k d, .call .avifenc (k + 1) d]⟩

/-- Shallow embedding of `convert_heic_to_avif_variants`
(converter.py lines 19-84), the conversion entry point.  It creates the
scratch directory (`with tempfile.TemporaryDirectory()`), writes the input
file, runs `avifenc` directly on it, and on a non-zero exit code calls the
Pillow fallback from inside the try block — so when that fallback chain
raises, the except handler at line 81 calls the Pillow fallback a second
time.  A raised exception (subprocess failure, reading a missing output
file, or — for a zero-length input — the `ZeroDivisionError` of the
compression-ratio computation at line 74 after a successful encode)
triggers a single Pillow fallback call from the except handler.  The
`with` block guarantees the directory is removed on every exit path, so
the trace always ends in `dirRemove`. -/
def convert_heic_to_avif_variants (env : Env) (heic_data : Bytes)
    (original_filename : String) : ConvResult :=
  let d : Nat := 0
  let pre : List Event :=
    [.dirCreate d, .strat .direct d, .write d (inputName original_filename) heic_data]
  let core : ConvResult :=
    match env 0 with
    | .exn _ =>
        let r := convert_heic_to_avif_pillow_fallback env heic_data original_filename 1 d
        ⟨r.outcome, r.calls, .call .avifenc 0 d :: r.trace⟩
    | .ret code _ out =>
        if code ≠ 0 then
          let r1 := convert_heic_to_avif_pillow_fallback env heic_data original_filename 1 d
          match r1.outcome with
          | .ok bs => ⟨.ok bs, r1.calls, .call .avifenc 0 d :: r1.trace⟩
          | .error _ =>
              let r2 := convert_heic_to_avif_pillow_fallback env heic_data original_filename r1.calls d
              ⟨r2.outcome, r2.calls, .call .avifenc 0 d :: (r1.trace ++ r2.trace)⟩
        else
          match out with
          | none =>
              let r := convert_heic_to_avif_pillow_fallback env heic_data original_filename 1 d
              ⟨r.outcome, r.calls, .call .avifenc 0 d :: r.trace⟩
          | some bs =>
              if heic_data.length = 0 then
                let r := convert_heic_to_avif_pillow_fallback env heic_data original_filename 1 d
                ⟨r.outcome, r.calls, .call .avifenc 0 d :: r.trace⟩
              else ⟨.ok bs, 1, [.call .avifenc 0 d]⟩
  ⟨core.outcome, core.calls, pre ++ (core.trace ++ [.dirRemove d])⟩

/-- Recognizes a `strat direct` event. -/
def isDirectStrat : Event → Bool
  | .strat .direct _ => true
  | _ => false

/-- Recognizes a `strat pillow` event. -/
def isPillowStrat : Event → Bool
  | .strat .pillow _ => true
  | _ => false

/-- Recognizes a `strat magick` event. -/
def isMagickStrat : Event → Bool
  | .strat .magick _ => true
  | _ => false

/-- Recognizes a `dirCreate` event. -/
def isDirCreate : Event → Bool
  | .dirCreate _ => true
  | _ => false

/-- Number of attempts of the direct strategy recorded in a trace. -/
def directAttempts (evs : List Event) : Nat := evs.countP isDirectStrat

/-- Number of attempts of the Pillow strategy recorded in a trace. -/
def pillowAttempts (evs : List Event) : Nat := evs.countP isPillowStrat

/-- Number of attempts of the ImageMagick strategy recorded in a trace. -/
def magickAttempts (evs : List Event) : Nat := evs.countP isMagickStrat

/-- Number of scratch directories created in a trace. -/
def dirCreates (evs : List Event) : Nat := evs.countP isDirCreate

/-- An event that operates inside directory `d` (directory lifecycle
events are excluded). -/
def sameDir (d : Nat) : Event → Bool
  | .strat _ d' => d' == d
  | .write d' _ _ => d' == d
  | .call _ _ d' => d' == d
  | .dirCreate _ => false
  | .dirRemove _ => false

/-- Oracle where every external invocation completes with exit code 1 and
produces no output file. -/
def envAllFail : Env := fun _ => .ret 1 "E" none

/-- Oracle where the direct `avifenc` run exits 1, the Pillow decode
succeeds, and the `avifenc` run on the intermediate JPEG exits 0 producing
the output `[5]`. -/
def envPillowOk : Env := fun k =>
  if k = 0 then .ret 1 "E" none
  else if k = 1 then .ret 0 "" none
  else .ret 0 "" (some [5])

/-- Oracle where the first `avifenc` run exits 0 and produces an empty
output file. -/
def envEmptyOut : Env := fun _ => .ret 0 "" (some [])

/-- Oracle where the first `avifenc` run exits 0 and produces the output
`[1, 2]`. -/
def envOk : Env := fun _ => .ret 0 "" (some [1, 2])

/-! ## HTTP service (`app/main.py`) -/

/-- Python `round(x, ndigits)`: round to `ndigits` decimal places with
ties going to the nearest even multiple (banker's rounding).  The source
computes on IEEE doubles; the quantities this service rounds (byte counts
divided by powers of two, ratio percentages) are modelled as exact
rationals. -/
def roundHalfEven (x : ℚ) : ℤ :=
  if x - x.floor < 1 / 2 then x.floor
  else if 1 / 2 < x - x.floor then x.floor + 1
  else if x.floor % 2 = 0 then x.floor else x.floor + 1

/-- `round(x, ndigits)` as a rational. -/
def pyRound (x : ℚ) (ndigits : Nat) : ℚ :=
  (roundHalfEven (x * (10 ^ ndigits : ℕ)) : ℚ) / (10 ^ ndigits : ℕ)

/-- Python `a or b` for an optional string falling back to a string:
`None` and the empty string are falsy. -/
def pyOrStr (a : Option String) (b : String) : String :=
  match a with
  | none => b
  | some s => if s = "" then b else s

/-- The uploaded file of the multipart request: its declared media type
(`None` when the client sent none), its filename, and its content. -/
structure UploadFile where
  content_type : Option String
  filename : Option String
  data : Bytes
deriving DecidableEq

/-- JSON body posted to `{PHOTOVAULT_API_URL}/conversion-complete`
(main.py lines 182-200).  `bucketName`/`folderPath` are pass-through form
fields and `processingTime` is always `None` in the source; they are
omitted here. -/
structure CallbackPayload where
  originalFilename : String
  convertedFilename : Option String
  success : Bool
  fileSize : Option Nat
  originalSize : Option Nat
  compressionRatio : Option ℚ
  error : Option String
deriving DecidableEq

/-- Success body returned by `/convert` (main.py lines 131-138).  The
source base64-encodes the AVIF bytes for transport; the encoding is a
bijective serialization and the bytes are carried here directly. -/
structure SuccessBody where
  success : Bool
  message : String
  original_size : Nat
  converted_size : Nat
  compression_ratio : ℚ
  avif_data : Bytes
deriving DecidableEq

/-- HTTP outcome of the convert endpoint: a JSON success body, or an
`HTTPException` with a status code and detail.  The human-readable size
figures interpolated into the 413 detail are elided. -/
inductive Resp
  | json (body : SuccessBody)
  | httpError (status : Nat) (detail : String)
deriving DecidableEq

/-- Everything observable about one handled convert request: the HTTP
response, the callbacks posted, the converter's event trace (empty when
the converter was never invoked), and whether the handler logged the
callback-failure warning of main.py line 128. -/
structure ConvertOutcome where
  resp : Resp
  callbacks : List CallbackPayload
  trace : List Event
  callbackWarned : Bool
deriving DecidableEq

/-- Effective filename used by the extension check at main.py line 71:
`originalFilename or image.filename or ""`. -/
def checkFilename (originalFilename : Option String) (image : UploadFile) : String :=
  pyOrStr originalFilename (pyOrStr image.filename "")

/-- Filename handed to the converter (main.py line 86):
`originalFilename or image.filename or "image.heic"`. -/
def convFilename (originalFilename : Option String) (image : UploadFile) : String :=
  pyOrStr originalFilename (pyOrStr image.filename "image.heic")

/-- The validation at main.py lines 68-73: the request is accepted when
the declared content type is `image/heic` or `image/heif`, or the
effective filename ends case-insensitively in `.heic` or `.heif`. -/
def heicTypeOk (image : UploadFile) (originalFilename : Option String) : Bool :=
  (image.content_type == some "image/heic" || image.content_type == some "image/heif")
    || (let f := pyLower (checkFilename originalFilename image)
        pyEndsWith f ".heic" || pyEndsWith f ".heif")

/-- The upload size in MB as computed at main.py line 76:
`round(len(heic_data) / 1024 / 1024, 2)`. -/
def heicSizeMb (image : UploadFile) : ℚ :=
  pyRound ((image.data.length : ℚ) / 1024 / 1024) 2

/-- True when the response is the JSON success body. -/
def isSuccessResp : Resp → Bool
  | .json _ => true
  | .httpError _ _ => false

/-- The convert handler (`convert_image`, main.py lines 55-161) up to the
callback-send result, which the handler only logs.  `maxFileSizeEnv` is
the `MAX_FILE_SIZE_MB` environment variable (as a number; `none` when
unset, defaulted to 100 at line 79).  Order of checks follows the source:
HEIC/HEIF validation first (400), then the size limit (413), then the
converter; a converter exception yields a failure callback and a 500.
The division at main.py line 100 would raise `ZeroDivisionError` for a
zero-length upload; that branch is mirrored here but is unreachable,
because the converter never returns success for a zero-length input (each
strategy's own compression-ratio computation raises first, converter.py
lines 74/136/184). -/
def convert_image_body (env : Env) (maxFileSizeEnv : Option Nat)
    (image : UploadFile) (originalFilename : Option String) : ConvertOutcome :=
  if heicTypeOk image originalFilename then
    let max_file_size_mb : Nat := maxFileSizeEnv.getD 100
    if (max_file_size_mb : ℚ) < heicSizeMb image then
      { resp := .httpError 413 "File too large"
        callbacks := [], trace := [], callbackWarned := false }
    else
      let filename := convFilename originalFilename image
      let r := convert_heic_to_avif_variants env image.data filename
      match r.outcome with
      | .ok avif_data =>
          if image.data.length = 0 then
            { resp := .httpError 500 "Conversion failed: division by zero"
              callbacks :=
                [{ originalFilename := filename, convertedFilename := none,
                   success := false, fileSize := none, originalSize := none,
                   compressionRatio := none, error := some "division by zero" }]
              trace := r.trace, callbackWarned := false }
          else
            let original_size := image.data.length
            let converted_size := avif_data.length
            let compression_ratio :=
              pyRound ((1 - (converted_size : ℚ) / (original_size : ℚ)) * 100) 1
            { resp := .json
                { success := true
                  message := "HEIC successfully converted to AVIF"
                  original_size := original_size
                  converted_size := converted_size
                  compression_ratio := compression_ratio
                  avif_data := avif_data }
              callbacks :=
                [{ originalFilename := filename
                   convertedFilename :=
                     some ((filename.replace ".heic" ".avif").replace ".heif" ".avif")
                   success := true, fileSize := some converted_size
                   originalSize := some original_size
                   compressionRatio := some compression_ratio, error := none }]
              trace := r.trace, callbackWarned := false }
      | .error e =>
          { resp := .httpError 500 ("Conversion failed: " ++ e)
            callbacks :=
              [{ originalFilename := filename, convertedFilename := none,
                 success := false, fileSize := none, originalSize := none,
                 compressionRatio := none, error := some e }]
            trace := r.trace, callbackWarned := false }
  else
    { resp := .httpError 400 "Only HEIC/HEIF images are supported."
      callbacks := [], trace := [], callbackWarned := false }

/-- The convert handler including the callback-send outcome `callbackOk`
(what `send_conversion_callback` returned; it catches every exception and
returns a boolean, main.py lines 202-223).  The handler only consults it
for the warning log on the success path (main.py lines 127-128); response
and payloads are built before and independently of it. -/
def convert_image (env : Env) (maxFileSizeEnv : Option Nat) (image : UploadFile)
    (originalFilename : Option String) (callbackOk : Bool) : ConvertOutcome :=
  let o := convert_image_body env maxFileSizeEnv image originalFilename
  { o with callbackWarned := isSuccessResp o.resp && !callbackOk }

/-- Capabilities reported by the health endpoint. -/
structure Capabilities where
  pillow_heif : Bool
  avifenc : Bool
deriving DecidableEq

/-- Body of the health response. -/
structure HealthBody where
  status : String
  service : String
  capabilities : Capabilities
deriving DecidableEq

/-- Shallow embedding of `health_check` (main.py lines 23-53).  `probe` is
the outcome of `subprocess.run(["avifenc", "--version"], timeout=5)`;
`.exn` covers both a missing binary and the five-second timeout, and the
bare `except` swallows every such exception.  `pillow_heif` is `True`
unconditionally (imported at startup).  The memory figures are
reporting-only and omitted.  The first component is the HTTP status: the
handler never raises, so it is constantly 200. -/
def health_check (probe : CallResult) : Nat × HealthBody :=
  let capabilities : Capabilities :=
    { pillow_heif := true
      avifenc :=
        match probe with
        | .ret code _ _ => code == 0
        | .exn _ => false }
  let is_healthy := capabilities.pillow_heif && capabilities.avifenc
  (200,
   { status := if is_healthy then "healthy" else "unhealthy"
     service := "heic2avif-py"
     capabilities := capabilities })

/-- The JSON success body built at main.py lines 131-138 for input
`image` and converter output `bs`. -/
def successBody (image : UploadFile) (bs : Bytes) : SuccessBody :=
  { success := true
    message := "HEIC successfully converted to AVIF"
    original_size := image.data.length
    converted_size := bs.length
    compression_ratio := pyRound ((1 - (bs.length : ℚ) / (image.data.length : ℚ)) * 100) 1
    avif_data := bs }

/-- A syntactically well-formed HEIC upload used in concrete runs. -/
def imgHeic : UploadFile :=
  { content_type := some "image/heic", filename := some "a.heic", data := [7] }

/-- A PNG upload with no HEIC/HEIF suffix, used in concrete runs. -/
def imgPng : UploadFile :=
  { content_type := some "image/png", filename := some "a.png", data := [1, 2, 3] }

/-- A zero-length upload declared as HEIC, used in concrete runs. -/
def imgEmpty : UploadFile :=
  { content_type := some "image/heic", filename := some "a.heic", data := [] }

/-! ## Supporting lemmas -/

lemma roundHalfEven_le (x : ℚ) (n : ℤ) (h : x ≤ (n : ℚ)) : roundHalfEven x ≤ n := by
  have hfl : x.floor = ⌊x⌋ := rfl
  have h1 : ⌊x⌋ ≤ n := by
    have h2 := Int.floor_le_floor h
    rwa [Int.floor_intCast] at h2
  have hne : 1 / 2 ≤ x - (⌊x⌋ : ℚ) → ⌊x⌋ + 1 ≤ n := by
    intro hgt
    rcases lt_or_eq_of_le h1 with hlt | he
    · omega
    · exfalso
      rw [he] at hgt
      linarith
  unfold roundHalfEven
  rw [hfl]
  split
  · exact h1
  · rename_i h2
    split
    · exact hne (not_lt.mp h2)
    · split
      · exact h1
      · exact hne (not_lt.mp h2)

lemma heicSizeMb_le (image : UploadFile) (L : Nat)
    (h : image.data.length ≤ L * 1024 * 1024) : heicSizeMb image ≤ (L : ℚ) := by
  unfold heicSizeMb pyRound
  have hx : (image.data.length : ℚ) / 1024 / 1024 ≤ (L : ℚ) := by
    rw [div_div]
    rw [div_le_iff (by norm_num)]
    have : (image.data.length : ℚ) ≤ ((L * 1024 * 1024 : ℕ) : ℚ) := by
      exact_mod_cast h
    push_cast at this ⊢
    linarith
  have hr : roundHalfEven ((image.data.length : ℚ) / 1024 / 1024 * (10 ^ 2 : ℕ))
      ≤ (L : ℤ) * 100 := by
    apply roundHalfEven_le
    push_cast
    nlinarith [hx]
  rw [div_le_iff (by norm_num)]
  calc (roundHalfEven ((image.data.length : ℚ) / 1024 / 1024 * (10 ^ 2 : ℕ)) : ℚ)
      ≤ ((L : ℤ) * 100 : ℤ) := by exact_mod_cast hr
    _ = (L : ℚ) * (10 ^ 2 : ℕ) := by push_cast; ring

lemma imagemagick_spec (env : Env) (data : Bytes) (name : String) (k d : Nat) :
    convert_heic_to_avif_imagemagick env data name k d
      = ⟨magickResult data (env k), k + 1,
         [.strat .magick d, .write d (inputName name) data, .call .magick k d]⟩ := by
  unfold convert_heic_to_avif_imagemagick magickResult
  cases env k with
  | exn m => rfl
  | ret code stderr out =>
      cases out with
      | none => by_cases hc : code = 0 <;> simp [hc]
      | some bs =>
          by_cases hc : code = 0 <;> by_cases hd : data.length = 0 <;> simp [hc, hd]

lemma magickResult_cases (data : Bytes) (c : CallResult) :
    (∃ bs, magickResult data c = .ok bs) ∨ magickResult data c = .error (allFailMsg c) := by
  unfold magickResult
  cases c with
  | exn m => exact Or.inr rfl
  | ret code stderr out =>
      cases out with
      | none => exact Or.inr rfl
      | some bs =>
          by_cases hc : code = 0
          · by_cases hd : data.length = 0
            · exact Or.inr (by simp [hc, hd])
            · exact Or.inl ⟨bs, by simp [hc, hd]⟩
          · exact Or.inr (by simp [hc])

lemma pillowAttempts_cons (e : Event) (l : List Event) :
    pillowAttempts (e :: l) = pillowAttempts l + (if isPillowStrat e then 1 else 0) :=
  List.countP_cons isPillowStrat e l

lemma pillowAttempts_append (l1 l2 : List Event) :
    pillowAttempts (l1 ++ l2) = pillowAttempts l1 + pillowAttempts l2 :=
  List.countP_append isPillowStrat l1 l2

lemma pillowAttempts_nil : pillowAttempts [] = 0 := rfl

lemma directAttempts_cons (e : Event) (l : List Event) :
    directAttempts (e :: l) = directAttempts l + (if isDirectStrat e then 1 else 0) :=
  List.countP_cons isDirectStrat e l

lemma directAttempts_append (l1 l2 : List Event) :
    directAttempts (l1 ++ l2) = directAttempts l1 + directAttempts l2 :=
  List.countP_append isDirectStrat l1 l2

lemma directAttempts_nil : directAttempts [] = 0 := rfl

lemma magickAttempts_cons (e : Event) (l : List Event) :
    magickAttempts (e :: l) = magickAttempts l + (if isMagickStrat e then 1 else 0) :=
  List.countP_cons isMagickStrat e l

lemma magickAttempts_append (l1 l2 : List Event) :
    magickAttempts (l1 ++ l2) = magickAttempts l1 + magickAttempts l2 :=
  List.countP_append isMagickStrat l1 l2

lemma magickAttempts_nil : magickAttempts [] = 0 := rfl

lemma pillow_facts (env : Env) (data : Bytes) (name : String) (k d : Nat) :
    pillowAttempts (convert_heic_to_avif_pillow_fallback env data name k d).trace = 1
    ∧ directAttempts (convert_heic_to_avif_pillow_fallback env data name k d).trace = 0
    ∧ magickAttempts (convert_heic_to_avif_pillow_fallback env data name k d).trace ≤ 2
    ∧ (convert_heic_to_avif_pillow_fallback env data name k d).trace.all (sameDir d) = true := by
  unfold convert_heic_to_avif_pillow_fallback
  cases hk : env k with
  | exn m =>
      simp [imagemagick_spec, pillowAttempts_cons, pillowAttempts_append, pillowAttempts_nil,
            directAttempts_cons, directAttempts_append, directAttempts_nil,
            magickAttempts_cons, magickAttempts_append, magickAttempts_nil,
            isPillowStrat, isDirectStrat, isMagickStrat, sameDir]
  | ret c1 s1 o1 =>
      cases hk1 : env (k + 1) with
      | exn m =>
          simp [imagemagick_spec, pillowAttempts_cons, pillowAttempts_append, pillowAttempts_nil,
                directAttempts_cons, directAttempts_append, directAttempts_nil,
                magickAttempts_cons, magickAttempts_append, magickAttempts_nil,
                isPillowStrat, isDirectStrat, isMagickStrat, sameDir]
      | ret code s2 out =>
          by_cases hc : code = 0
          · cases out with
            | none =>
                simp [hc, imagemagick_spec, pillowAttempts_cons, pillowAttempts_append,
                      pillowAttempts_nil, directAttempts_cons, directAttempts_append,
                      directAttempts_nil, magickAttempts_cons, magickAttempts_append,
                      magickAttempts_nil, isPillowStrat, isDirectStrat, isMagickStrat, sameDir]
            | some bs =>
                by_cases hd : data.length = 0 <;>
                  simp [hc, hd, imagemagick_spec, pillowAttempts_cons, pillowAttempts_append,
                        pillowAttempts_nil, directAttempts_cons, directAttempts_append,
                        directAttempts_nil, magickAttempts_cons, magickAttempts_append,
                        magickAttempts_nil, isPillowStrat, isDirectStrat, isMagickStrat, sameDir]
          · rcases magickResult_cases data (env (k + 2)) with ⟨bs, hbs⟩ | herr
            · simp [hc, imagemagick_spec, hbs, pillowAttempts_cons, pillowAttempts_append,
                    pillowAttempts_nil, directAttempts_cons, directAttempts_append,
                    directAttempts_nil, magickAttempts_cons, magickAttempts_append,
                    magickAttempts_nil, isPillowStrat, isDirectStrat, isMagickStrat, sameDir]
            · simp [hc, imagemagick_spec, herr, pillowAttempts_cons, pillowAttempts_append,
                    pillowAttempts_nil, directAttempts_cons, directAttempts_append,
                    directAttempts_nil, magickAttempts_cons, magickAttempts_append,
                    magickAttempts_nil, isPillowStrat, isDirectStrat, isMagickStrat, sameDir]

lemma pillow_outcome (env : Env) (data : Bytes) (name : String) (k d : Nat) :
    (∃ bs, (convert_heic_to_avif_pillow_fallback env data name k d).outcome = .ok bs)
    ∨ (convert_heic_to_avif_pillow_fallback env data name k d).outcome
        = .error (allFailMsg
            (env ((convert_heic_to_avif_pillow_fallback env data name k d).calls - 1))) := by
  unfold convert_heic_to_avif_pillow_fallback
  cases hk : env k with
  | exn m =>
      simp only [imagemagick_spec]
      rcases magickResult_cases data (env (k + 1)) with ⟨bs, hbs⟩ | herr
      · exact Or.inl ⟨bs, by simp [hbs]⟩
      · exact Or.inr (by simp [herr])
  | ret c1 s1 o1 =>
      cases hk1 : env (k + 1) with
      | exn m =>
          simp only [imagemagick_spec]
          rcases magickResult_cases data (env (k + 2)) with ⟨bs, hbs⟩ | herr
          · exact Or.inl ⟨bs, by simp [hbs]⟩
          · exact Or.inr (by simp [herr])
      | ret code s2 out =>
          by_cases hc : code = 0
          · cases out with
            | none =>
                simp only [imagemagick_spec]
                rcases magickResult_cases data (env (k + 2)) with ⟨bs, hbs⟩ | herr
                · exact Or.inl ⟨bs, by simp [hc, hbs]⟩
                · exact Or.inr (by simp [hc, herr])
            | some bs =>
                by_cases hd : data.length = 0
                · simp only [imagemagick_spec]
                  rcases magickResult_cases data (env (k + 2)) with ⟨bs2, hbs⟩ | herr
                  · exact Or.inl ⟨bs2, by simp [hc, hd, hbs]⟩
                  · exact Or.inr (by simp [hc, hd, herr])
                · exact Or.inl ⟨bs, by simp [hc, hd]⟩
          · rcases magickResult_cases data (env (k + 2)) with ⟨bs, hbs⟩ | herr
            · exact Or.inl ⟨bs, by simp [hc, imagemagick_spec, hbs]⟩
            · rcases magickResult_cases data (env (k + 3)) with ⟨bs2, hbs2⟩ | herr2
              · exact Or.inl ⟨bs2, by simp [hc, imagemagick_spec, herr, hbs2]⟩
              · exact Or.inr (by simp [hc, imagemagick_spec, herr, herr2])

lemma variants_outcome (env : Env) (data : Bytes) (name : String) :
    (∃ bs, (convert_heic_to_avif_variants env data name).outcome = .ok bs)
    ∨ (convert_heic_to_avif_variants env data name).outcome
        = .error (allFailMsg
            (env ((convert_heic_to_avif_variants env data name).calls - 1))) := by
  unfold convert_heic_to_avif_variants
  cases hk : env 0 with
  | exn m =>
      rcases pillow_outcome env data name 1 0 with ⟨bs, hbs⟩ | herr
      · exact Or.inl ⟨bs, by simp [hbs]⟩
      · exact Or.inr (by simp [herr])
  | ret code s out =>
      by_cases hc : code = 0
      · cases out with
        | none =>
            rcases pillow_outcome env data name 1 0 with ⟨bs, hbs⟩ | herr
            · exact Or.inl ⟨bs, by simp [hc, hbs]⟩
            · exact Or.inr (by simp [hc, herr])
        | some bs =>
            by_cases hd : data.length = 0
            · rcases pillow_outcome env data name 1 0 with ⟨bs2, hbs⟩ | herr
              · exact Or.inl ⟨bs2, by simp [hc, hd, hbs]⟩
              · exact Or.inr (by simp [hc, hd, herr])
            · exact Or.inl ⟨bs, by simp [hc, hd]⟩
      · cases h1 : (convert_heic_to_avif_pillow_fallback env data name 1 0).outcome with
        | ok bs => exact Or.inl ⟨bs, by simp [hc, h1]⟩
        | error e =>
            rcases pillow_outcome env data name
                (convert_heic_to_avif_pillow_fallback env data name 1 0).calls 0 with
              ⟨bs, hbs⟩ | herr
            · exact Or.inl ⟨bs, by simp [hc, h1, hbs]⟩
            · exact Or.inr (by simp [hc, h1, herr])

lemma variants_trace_shape (env : Env) (data : Bytes) (name : String) :
    ∃ rest, (convert_heic_to_avif_variants env data name).trace
        = .dirCreate 0 :: .strat .direct 0 :: .write 0 (inputName name) data ::
          .call .avifenc 0 0 :: (rest ++ [.dirRemove 0])
      ∧ rest.all (sameDir 0) = true := by
  unfold convert_heic_to_avif_variants
  cases hk : env 0 with
  | exn m =>
      obtain ⟨-, -, -, ha⟩ := pillow_facts env data name 1 0
      exact ⟨(convert_heic_to_avif_pillow_fallback env data name 1 0).trace,
             by simp, ha⟩
  | ret code s out =>
      by_cases hc : code = 0
      · cases out with
        | none =>
            obtain ⟨-, -, -, ha⟩ := pillow_facts env data name 1 0
            exact ⟨(convert_heic_to_avif_pillow_fallback env data name 1 0).trace,
                   by simp [hc], ha⟩
        | some bs =>
            by_cases hd : data.length = 0
            · obtain ⟨-, -, -, ha⟩ := pillow_facts env data name 1 0
              exact ⟨(convert_heic_to_avif_pillow_fallback env data name 1 0).trace,
                     by simp [hc, hd], ha⟩
            · exact ⟨[], by simp [hc, hd], rfl⟩
      · cases h1 : (convert_heic_to_avif_pillow_fallback env data name 1 0).outcome with
        | ok bs =>
            obtain ⟨-, -, -, ha⟩ := pillow_facts env data name 1 0
            exact ⟨(convert_heic_to_avif_pillow_fallback env data name 1 0).trace,
                   by simp [hc, h1], ha⟩
        | error e =>
            obtain ⟨-, -, -, ha1⟩ := pillow_facts env data name 1 0
            obtain ⟨-, -, -, ha2⟩ := pillow_facts env data name
              (convert_heic_to_avif_pillow_fallback env data name 1 0).calls 0
            refine ⟨(convert_heic_to_avif_pillow_fallback env data name 1 0).trace ++
                    (convert_heic_to_avif_pillow_fallback env data name
                      (convert_heic_to_avif_pillow_fallback env data name 1 0).calls 0).trace,
                    by simp [hc, h1], ?_⟩
            simp [List.all_append, ha1, ha2]

lemma convert_image_error (env : Env) (maxEnv : Option Nat) (image : UploadFile)
    (orig : Option String) (cb : Bool) (e : String)
    (hty : heicTypeOk image orig = true)
    (hsz : heicSizeMb image ≤ ((maxEnv.getD 100 : Nat) : ℚ))
    (herr : (convert_heic_to_avif_variants env image.data (convFilename orig image)).outcome
              = .error e) :
    (convert_image env maxEnv image orig cb).resp
      = .httpError 500 ("Conversion failed: " ++ e)
    ∧ (convert_image env maxEnv image orig cb).callbacks
        = [{ originalFilename := convFilename orig image, convertedFilename := none,
             success := false, fileSize := none, originalSize := none,
             compressionRatio := none, error := some e }] := by
  have hss : ¬ ((maxEnv.getD 100 : Nat) : ℚ) < heicSizeMb image := not_lt.mpr hsz
  unfold convert_image convert_image_body
  simp [hty, hss, herr, isSuccessResp]

/-! ## Claim theorems -/

/-- C1: for every oracle, input bytes and filename, the orchestrator
either returns AVIF bytes or fails with the single aggregated error
carrying the last encountered failure reason — `failureReason` of the
final external invocation's result, which for an invocation that exited 0
with an output file is the `ZeroDivisionError` a zero-length input raises
in the ratio computation; it never yields both, and for a validated,
size-accepted request the HTTP handler turns the aggregated error into a
500 response. -/
theorem convert_bytes_xor_aggregated_error (env : Env) (maxEnv : Option Nat)
    (image : UploadFile) (orig : Option String) (cb : Bool)
    (hty : heicTypeOk image orig = true)
    (hsz : heicSizeMb image ≤ ((maxEnv.getD 100 : Nat) : ℚ)) :
    ((∃ bs, (convert_heic_to_avif_variants env image.data (convFilename orig image)).outcome
          = .ok bs)
      ∨ (convert_heic_to_avif_variants env image.data (convFilename orig image)).outcome
          = .error (allFailMsg (env
              ((convert_heic_to_avif_variants env image.data (convFilename orig image)).calls
                - 1))))
    ∧ (∀ bs e,
        ¬((convert_heic_to_avif_variants env image.data (convFilename orig image)).outcome
              = .ok bs
          ∧ (convert_heic_to_avif_variants env image.data (convFilename orig image)).outcome
              = .error e))
    ∧ (∀ e,
        (convert_heic_to_avif_variants env image.data (convFilename orig image)).outcome
            = .error e →
        (convert_image env maxEnv image orig cb).resp
          = .httpError 500 ("Conversion failed: " ++ e)) := by
  refine ⟨variants_outcome env image.data (convFilename orig image), ?_, ?_⟩
  · rintro bs e ⟨h1, h2⟩
    rw [h1] at h2
    exact Except.noConfusion h2
  · intro e herr
    exact (convert_image_error env maxEnv image orig cb e hty hsz herr).1

/-- C1 witness: with every external invocation failing, a validated
one-byte upload receives the 500 response carrying the aggregated error;
and a validated zero-length upload, even with every external invocation
exiting 0 with an output file, receives the 500 carrying the aggregated
division-by-zero reason (converter.py lines 74/136/184). -/
theorem convert_bytes_xor_aggregated_error_witness :
    (convert_image envAllFail none imgHeic none true).resp
      = .httpError 500
          "Conversion failed: All conversion methods failed. Last error: ImageMagick conversion failed: E"
    ∧ (convert_image envOk none imgEmpty none true).resp
        = .httpError 500
            "Conversion failed: All conversion methods failed. Last error: division by zero" :=
  ⟨(convert_bytes_xor_aggregated_error envAllFail none imgHeic none true (by decide)
      (by decide)).2.2
     "All conversion methods failed. Last error: ImageMagick conversion failed: E" (by decide),
   (convert_bytes_xor_aggregated_error envOk none imgEmpty none true (by decide)
      (by decide)).2.2
     "All conversion methods failed. Last error: division by zero" (by decide)⟩

/-- C2 counterexample: when every external invocation exits with code 1,
the Pillow strategy is invoked twice and the ImageMagick strategy four
times within the handling of one single request, because the fallback
calls made from inside try blocks are retried by the except handlers. -/
theorem pillow_attempted_twice_counterexample :
    pillowAttempts (convert_heic_to_avif_variants envAllFail [1] "photo.heic").trace = 2
    ∧ magickAttempts (convert_heic_to_avif_variants envAllFail [1] "photo.heic").trace = 4 := by
  decide

/-- C2 (amended): within one request the direct strategy runs exactly
once, the Pillow strategy at most twice and the ImageMagick strategy at
most four times, for every oracle; re-invocation happens when a strategy
fails with a non-zero exit code and the fallback chain called from inside
its try block then raises. -/
theorem strategy_attempt_bounds (env : Env) (data : Bytes) (name : String) :
    directAttempts (convert_heic_to_avif_variants env data name).trace = 1
    ∧ pillowAttempts (convert_heic_to_avif_variants env data name).trace ≤ 2
    ∧ magickAttempts (convert_heic_to_avif_variants env data name).trace ≤ 4 := by
  unfold convert_heic_to_avif_variants
  cases hk : env 0 with
  | exn m =>
      obtain ⟨hp, hd, hm, -⟩ := pillow_facts env data name 1 0
      refine ⟨?_, ?_, ?_⟩ <;>
        simp [pillowAttempts_cons, pillowAttempts_append, pillowAttempts_nil,
              directAttempts_cons, directAttempts_append, directAttempts_nil,
              magickAttempts_cons, magickAttempts_append, magickAttempts_nil,
              isPillowStrat, isDirectStrat, isMagickStrat, hp, hd] <;> omega
  | ret code s out =>
      by_cases hc : code = 0
      · cases out with
        | none =>
            obtain ⟨hp, hd, hm, -⟩ := pillow_facts env data name 1 0
            refine ⟨?_, ?_, ?_⟩ <;>
              simp [hc, pillowAttempts_cons, pillowAttempts_append, pillowAttempts_nil,
                    directAttempts_cons, directAttempts_append, directAttempts_nil,
                    magickAttempts_cons, magickAttempts_append, magickAttempts_nil,
                    isPillowStrat, isDirectStrat, isMagickStrat, hp, hd] <;> omega
        | some bs =>
            obtain ⟨hp, hd, hm, -⟩ := pillow_facts env data name 1 0
            by_cases hd0 : data.length = 0 <;>
            refine ⟨?_, ?_, ?_⟩ <;>
              simp [hc, hd0, pillowAttempts_cons, pillowAttempts_append, pillowAttempts_nil,
                    directAttempts_cons, directAttempts_append, directAttempts_nil,
                    magickAttempts_cons, magickAttempts_append, magickAttempts_nil, hp, hd,
                    isPillowStrat, isDirectStrat, isMagickStrat] <;> omega
      · cases h1 : (convert_heic_to_avif_pillow_fallback env data name 1 0).outcome with
        | ok bs =>
            obtain ⟨hp, hd, hm, -⟩ := pillow_facts env data name 1 0
            refine ⟨?_, ?_, ?_⟩ <;>
              simp [hc, h1, pillowAttempts_cons, pillowAttempts_append, pillowAttempts_nil,
                    directAttempts_cons, directAttempts_append, directAttempts_nil,
                    magickAttempts_cons, magickAttempts_append, magickAttempts_nil,
                    isPillowStrat, isDirectStrat, isMagickStrat, hp, hd] <;> omega
        | error e =>
            obtain ⟨hp1, hd1, hm1, -⟩ := pillow_facts env data name 1 0
            obtain ⟨hp2, hd2, hm2, -⟩ := pillow_facts env data name
              (convert_heic_to_avif_pillow_fallback env data name 1 0).calls 0
            refine ⟨?_, ?_, ?_⟩ <;>
              simp [hc, h1, pillowAttempts_cons, pillowAttempts_append, pillowAttempts_nil,
                    directAttempts_cons, directAttempts_append, directAttempts_nil,
                    magickAttempts_cons, magickAttempts_append, magickAttempts_nil,
                    isPillowStrat, isDirectStrat, isMagickStrat, hp1, hp2, hd1, hd2] <;> omega

/-- C3 counterexample: with the direct `avifenc` run exiting 1 and the
Pillow fallback succeeding, the direct and Pillow strategies both run
inside directory 0, and only one scratch directory is ever created — the
fallback strategy reuses the first strategy's directory instead of getting
a fresh one. -/
theorem scratch_dir_shared_counterexample :
    Event.strat .direct 0 ∈ (convert_heic_to_avif_variants envPillowOk [1] "a.heic").trace
    ∧ Event.strat .pillow 0 ∈ (convert_heic_to_avif_variants envPillowOk [1] "a.heic").trace
    ∧ dirCreates (convert_heic_to_avif_variants envPillowOk [1] "a.heic").trace = 1 := by
  decide

/-- C3 (amended): for every oracle, one single scratch directory is
created at the start of the request, every strategy attempt and temporary
file of the request lives inside that one directory, and it is removed at
the very end on every path, success or failure. -/
theorem scratch_dir_single_shared_and_removed (env : Env) (data : Bytes) (name : String) :
    ∃ mid, (convert_heic_to_avif_variants env data name).trace
        = .dirCreate 0 :: .strat .direct 0 :: (mid ++ [.dirRemove 0])
      ∧ mid.all (sameDir 0) = true := by
  obtain ⟨rest, htr, ha⟩ := variants_trace_shape env data name
  refine ⟨.write 0 (inputName name) data :: .call .avifenc 0 0 :: rest, ?_, ?_⟩
  · rw [htr]; rfl
  · simp [sameDir, ha]

/-- C4 counterexample: a direct attempt whose `avifenc` exits 0 and
produces an empty output file is returned as a successful conversion with
empty bytes; no fallback strategy is attempted. -/
theorem empty_output_accepted_counterexample :
    (convert_heic_to_avif_variants envEmptyOut [9] "p.heic").outcome = .ok []
    ∧ pillowAttempts (convert_heic_to_avif_variants envEmptyOut [9] "p.heic").trace = 0 := by
  decide

/-- C4 (amended): the direct strategy hands over to the Pillow strategy
exactly when it fails by raised exception, by non-zero exit code, by a
missing output file, or — for a zero-length input — by the
`ZeroDivisionError` its own compression-ratio computation
(converter.py line 74) raises after a successful encode; for a non-empty
input, an attempt that exits 0 and produces an output file is returned as
success, even when that file is empty. -/
theorem direct_failure_fallback_characterization (env : Env) (data : Bytes) (name : String) :
    (∀ m, env 0 = .exn m →
        1 ≤ pillowAttempts (convert_heic_to_avif_variants env data name).trace)
    ∧ (∀ code stderr out, env 0 = .ret code stderr out → code ≠ 0 →
        1 ≤ pillowAttempts (convert_heic_to_avif_variants env data name).trace)
    ∧ (∀ stderr, env 0 = .ret 0 stderr none →
        1 ≤ pillowAttempts (convert_heic_to_avif_variants env data name).trace)
    ∧ (∀ stderr bs, env 0 = .ret 0 stderr (some bs) → data.length ≠ 0 →
        (convert_heic_to_avif_variants env data name).outcome = .ok bs
        ∧ pillowAttempts (convert_heic_to_avif_variants env data name).trace = 0)
    ∧ (∀ stderr bs, env 0 = .ret 0 stderr (some bs) → data.length = 0 →
        1 ≤ pillowAttempts (convert_heic_to_avif_variants env data name).trace) := by
  refine ⟨?_, ?_, ?_, ?_, ?_⟩
  · intro m h
    obtain ⟨hp, -, -, -⟩ := pillow_facts env data name 1 0
    unfold convert_heic_to_avif_variants
    rw [h]
    simp [pillowAttempts_cons, pillowAttempts_append, pillowAttempts_nil,
          isPillowStrat, hp]
  · intro code stderr out h hc0
    obtain ⟨hp1, -, -, -⟩ := pillow_facts env data name 1 0
    obtain ⟨hp2, -, -, -⟩ := pillow_facts env data name
      (convert_heic_to_avif_pillow_fallback env data name 1 0).calls 0
    unfold convert_heic_to_avif_variants
    rw [h]
    cases h1 : (convert_heic_to_avif_pillow_fallback env data name 1 0).outcome with
    | ok bs =>
        simp [hc0, h1, pillowAttempts_cons, pillowAttempts_append, pillowAttempts_nil,
              isPillowStrat, hp1]
    | error e =>
        simp [hc0, h1, pillowAttempts_cons, pillowAttempts_append, pillowAttempts_nil,
              isPillowStrat, hp1, hp2]
  · intro stderr h
    obtain ⟨hp, -, -, -⟩ := pillow_facts env data name 1 0
    unfold convert_heic_to_avif_variants
    rw [h]
    simp [pillowAttempts_cons, pillowAttempts_append, pillowAttempts_nil,
          isPillowStrat, hp]
  · intro stderr bs h hd0
    unfold convert_heic_to_avif_variants
    rw [h]
    simp [hd0, pillowAttempts_cons, pillowAttempts_append, pillowAttempts_nil, isPillowStrat]
  · intro stderr bs h hd0
    obtain ⟨hp, -, -, -⟩ := pillow_facts env data name 1 0
    unfold convert_heic_to_avif_variants
    rw [h]
    simp [hd0, pillowAttempts_cons, pillowAttempts_append, pillowAttempts_nil,
          isPillowStrat, hp]

/-- C4 witness: a direct attempt exiting 0 with output `[1, 2]` on a
non-empty input is returned as success with no fallback attempt, while on
a zero-length input the same oracle triggers the Pillow fallback. -/
theorem direct_failure_fallback_characterization_witness :
    ((convert_heic_to_avif_variants envOk [3] "a.heic").outcome = .ok [1, 2]
      ∧ pillowAttempts (convert_heic_to_avif_variants envOk [3] "a.heic").trace = 0)
    ∧ 1 ≤ pillowAttempts (convert_heic_to_avif_variants envOk [] "a.heic").trace :=
  ⟨(direct_failure_fallback_characterization envOk [3] "a.heic").2.2.2.1 "" [1, 2] rfl
     (by decide),
   (direct_failure_fallback_characterization envOk [] "a.heic").2.2.2.2 "" [1, 2] rfl rfl⟩

lemma convert_resp_invalid (env : Env) (maxEnv : Option Nat) (image : UploadFile)
    (orig : Option String) (cb : Bool) (hty : heicTypeOk image orig = false) :
    (convert_image env maxEnv image orig cb).resp
      = .httpError 400 "Only HEIC/HEIF images are supported."
    ∧ (convert_image env maxEnv image orig cb).trace = []
    ∧ (convert_image env maxEnv image orig cb).callbacks = [] := by
  unfold convert_image convert_image_body
  simp [hty, isSuccessResp]

lemma convert_resp_413 (env : Env) (maxEnv : Option Nat) (image : UploadFile)
    (orig : Option String) (cb : Bool) (hty : heicTypeOk image orig = true)
    (hsz : ((maxEnv.getD 100 : Nat) : ℚ) < heicSizeMb image) :
    (convert_image env maxEnv image orig cb).resp = .httpError 413 "File too large"
    ∧ (convert_image env maxEnv image orig cb).trace = []
    ∧ (convert_image env maxEnv image orig cb).callbacks = [] := by
  unfold convert_image convert_image_body
  simp [hty, hsz, isSuccessResp]

lemma convert_resp_converted (env : Env) (maxEnv : Option Nat) (image : UploadFile)
    (orig : Option String) (cb : Bool) (hty : heicTypeOk image orig = true)
    (hsz : ¬ ((maxEnv.getD 100 : Nat) : ℚ) < heicSizeMb image) :
    (∃ body, (convert_image env maxEnv image orig cb).resp = .json body)
    ∨ (∃ s, (convert_image env maxEnv image orig cb).resp = .httpError 500 s) := by
  cases hout : (convert_heic_to_avif_variants env image.data (convFilename orig image)).outcome
    with
  | ok bs =>
      by_cases hlen : image.data.length = 0
      · refine Or.inr ⟨"Conversion failed: division by zero", ?_⟩
        unfold convert_image convert_image_body
        simp [hty, hsz, hout, hlen, isSuccessResp]
      · refine Or.inl ⟨successBody image bs, ?_⟩
        unfold convert_image convert_image_body
        simp [hty, hsz, hout, hlen, isSuccessResp, successBody]
  | error e =>
      refine Or.inr ⟨"Conversion failed: " ++ e, ?_⟩
      unfold convert_image convert_image_body
      simp [hty, hsz, hout, isSuccessResp]

lemma convert_resp_not413 (env : Env) (maxEnv : Option Nat) (image : UploadFile)
    (orig : Option String) (cb : Bool) (hty : heicTypeOk image orig = true)
    (hsz : ¬ ((maxEnv.getD 100 : Nat) : ℚ) < heicSizeMb image) :
    ∀ s, (convert_image env maxEnv image orig cb).resp ≠ .httpError 413 s := by
  intro s h
  rcases convert_resp_converted env maxEnv image orig cb hty hsz with ⟨body, hb⟩ | ⟨t, ht⟩
  · rw [hb] at h; exact Resp.noConfusion h
  · rw [ht] at h
    have := (Resp.httpError.injEq _ _ _ _).mp h
    omega

lemma convert_resp_not400 (env : Env) (maxEnv : Option Nat) (image : UploadFile)
    (orig : Option String) (cb : Bool) (hty : heicTypeOk image orig = true) :
    ∀ s, (convert_image env maxEnv image orig cb).resp ≠ .httpError 400 s := by
  intro s h
  by_cases hsz : ((maxEnv.getD 100 : Nat) : ℚ) < heicSizeMb image
  · have h413 := (convert_resp_413 env maxEnv image orig cb hty hsz).1
    rw [h413] at h
    have := (Resp.httpError.injEq _ _ _ _).mp h
    omega
  · rcases convert_resp_converted env maxEnv image orig cb hty hsz with ⟨body, hb⟩ | ⟨t, ht⟩
    · rw [hb] at h; exact Resp.noConfusion h
    · rw [ht] at h
      have := (Resp.httpError.injEq _ _ _ _).mp h
      omega

lemma convert_resp_ok (env : Env) (maxEnv : Option Nat) (image : UploadFile)
    (orig : Option String) (cb : Bool) (bs : Bytes)
    (hty : heicTypeOk image orig = true)
    (hsz : ¬ ((maxEnv.getD 100 : Nat) : ℚ) < heicSizeMb image)
    (hlen : image.data.length ≠ 0)
    (hout : (convert_heic_to_avif_variants env image.data (convFilename orig image)).outcome
              = .ok bs) :
    (convert_image env maxEnv image orig cb).resp = .json (successBody image bs) := by
  unfold convert_image convert_image_body
  simp [hty, hsz, hout, hlen, isSuccessResp, successBody]

lemma convert_resp_json_inv (env : Env) (maxEnv : Option Nat) (image : UploadFile)
    (orig : Option String) (cb : Bool) (body : SuccessBody)
    (h : (convert_image env maxEnv image orig cb).resp = .json body) :
    body = successBody image body.avif_data
    ∧ (convert_heic_to_avif_variants env image.data (convFilename orig image)).outcome
        = .ok body.avif_data
    ∧ image.data.length ≠ 0 := by
  by_cases hty : heicTypeOk image orig
  · by_cases hsz : ((maxEnv.getD 100 : Nat) : ℚ) < heicSizeMb image
    · exfalso
      have h413 := (convert_resp_413 env maxEnv image orig cb hty hsz).1
      rw [h413] at h
      exact Resp.noConfusion h
    · cases hout :
        (convert_heic_to_avif_variants env image.data (convFilename orig image)).outcome with
      | ok bs =>
          by_cases hlen : image.data.length = 0
          · exfalso
            unfold convert_image convert_image_body at h
            simp [hty, hsz, hout, hlen, isSuccessResp] at h
          · have hok := convert_resp_ok env maxEnv image orig cb bs hty hsz hlen hout
            rw [hok] at h
            have hb : successBody image bs = body := by simpa using h
            subst hb
            refine ⟨?_, ?_, hlen⟩
            · simp [successBody]
            · simpa [successBody] using hout
      | error e =>
          exfalso
          unfold convert_image convert_image_body at h
          simp [hty, hsz, hout, isSuccessResp] at h
  · exfalso
    have h400 := (convert_resp_invalid env maxEnv image orig cb (by simpa using hty)).1
    rw [h400] at h
    exact Resp.noConfusion h

/-- C5: the convert endpoint accepts an upload exactly when the declared
content type is image/heic or image/heif, or the effective filename (the
originalFilename form field when non-empty, else the upload filename)
ends case-insensitively in .heic or .heif; when neither holds it responds
400 without invoking any conversion strategy, and when either holds it
never responds 400. -/
theorem validation_type_or_suffix (env : Env) (maxEnv : Option Nat)
    (image : UploadFile) (orig : Option String) (cb : Bool) :
    (heicTypeOk image orig = true ↔
      (image.content_type = some "image/heic" ∨ image.content_type = some "image/heif"
        ∨ pyEndsWith (pyLower (checkFilename orig image)) ".heic" = true
        ∨ pyEndsWith (pyLower (checkFilename orig image)) ".heif" = true))
    ∧ (heicTypeOk image orig = false →
        (convert_image env maxEnv image orig cb).resp
          = .httpError 400 "Only HEIC/HEIF images are supported."
        ∧ (convert_image env maxEnv image orig cb).trace = [])
    ∧ (heicTypeOk image orig = true →
        ∀ s, (convert_image env maxEnv image orig cb).resp ≠ .httpError 400 s) := by
  refine ⟨?_, ?_, ?_⟩
  · unfold heicTypeOk
    simp [or_assoc]
  · intro hty
    have hi := convert_resp_invalid env maxEnv image orig cb hty
    exact ⟨hi.1, hi.2.1⟩
  · exact fun hty => convert_resp_not400 env maxEnv image orig cb hty

/-- C5 witness: a PNG upload with no HEIC/HEIF suffix receives 400 and
the converter never runs. -/
theorem validation_type_or_suffix_witness :
    (convert_image envAllFail none imgPng none true).resp
      = .httpError 400 "Only HEIC/HEIF images are supported."
    ∧ (convert_image envAllFail none imgPng none true).trace = [] :=
  (validation_type_or_suffix envAllFail none imgPng none true).2.1 (by decide)

/-- C6 counterexample: with MAX_FILE_SIZE_MB set to 0, a validated
one-byte upload exceeds the configured limit of 0 MB in size, yet the
endpoint does not respond 413 — the source compares the size rounded to
two decimal places of MB — and instead runs the converter (here every
strategy fails, so the response is the 500). -/
theorem size_limit_rounding_counterexample :
    0 * 1024 * 1024 < imgHeic.data.length
    ∧ (convert_image envAllFail (some 0) imgHeic none true).resp
        = .httpError 500
            "Conversion failed: All conversion methods failed. Last error: ImageMagick conversion failed: E" := by
  decide

/-- C6 (amended): after validation, the endpoint responds 413 exactly
when the upload size in MB rounded to two decimal places (banker's
rounding) exceeds the MAX_FILE_SIZE_MB limit (default 100 when the
variable is unset); an upload of at most limit·2²⁰ bytes is never
rejected for size, and when 413 is returned no conversion strategy has
been attempted. -/
theorem size_limit_rounded_check (env : Env) (maxEnv : Option Nat)
    (image : UploadFile) (orig : Option String) (cb : Bool)
    (hty : heicTypeOk image orig = true) :
    (((maxEnv.getD 100 : Nat) : ℚ) < heicSizeMb image
        ↔ (convert_image env maxEnv image orig cb).resp = .httpError 413 "File too large")
    ∧ (image.data.length ≤ maxEnv.getD 100 * 1024 * 1024 →
        ∀ s, (convert_image env maxEnv image orig cb).resp ≠ .httpError 413 s)
    ∧ ((convert_image env maxEnv image orig cb).resp = .httpError 413 "File too large" →
        (convert_image env maxEnv image orig cb).trace = []) := by
  have hiff : ((maxEnv.getD 100 : Nat) : ℚ) < heicSizeMb image
      ↔ (convert_image env maxEnv image orig cb).resp = .httpError 413 "File too large" := by
    constructor
    · intro hsz
      exact (convert_resp_413 env maxEnv image orig cb hty hsz).1
    · intro h413
      by_cases hsz : ((maxEnv.getD 100 : Nat) : ℚ) < heicSizeMb image
      · exact hsz
      · exact absurd h413 (convert_resp_not413 env maxEnv image orig cb hty hsz "File too large")
  refine ⟨hiff, ?_, ?_⟩
  · intro hlen s
    have hle := heicSizeMb_le image (maxEnv.getD 100) hlen
    exact convert_resp_not413 env maxEnv image orig cb hty (not_lt.mpr hle) s
  · intro h413
    exact (convert_resp_413 env maxEnv image orig cb hty (hiff.mpr h413)).2.1

/-- C6 witness: a validated one-byte upload under the default limit of
100 MB is not rejected for size. -/
theorem size_limit_rounded_check_witness :
    (convert_image envAllFail none imgHeic none true).resp
      ≠ .httpError 413 "File too large" :=
  (size_limit_rounded_check envAllFail none imgHeic none true (by decide)).2.1 (by decide)
    "File too large"

/-- C7: every successful response reports converted_size equal to the
byte length of the returned AVIF payload, original_size equal to the byte
length of the upload, and a compression ratio of
round((1 - convertedSize/originalSize) · 100, 1). -/
theorem compression_ratio_formula (env : Env) (maxEnv : Option Nat)
    (image : UploadFile) (orig : Option String) (cb : Bool) (body : SuccessBody)
    (h : (convert_image env maxEnv image orig cb).resp = .json body) :
    body.converted_size = body.avif_data.length
    ∧ body.original_size = image.data.length
    ∧ body.compression_ratio
        = pyRound ((1 - (body.converted_size : ℚ) / (body.original_size : ℚ)) * 100) 1 := by
  obtain ⟨hb, -, -⟩ := convert_resp_json_inv env maxEnv image orig cb body h
  rw [hb]
  simp [successBody]

/-- C7 witness: the success body of a concrete conversion (1-byte input,
2-byte AVIF output) satisfies the size and ratio equations. -/
theorem compression_ratio_formula_witness :
    (successBody imgHeic [1, 2]).converted_size
        = (successBody imgHeic [1, 2]).avif_data.length
    ∧ (successBody imgHeic [1, 2]).original_size = imgHeic.data.length
    ∧ (successBody imgHeic [1, 2]).compression_ratio
        = pyRound ((1 - ((successBody imgHeic [1, 2]).converted_size : ℚ)
            / ((successBody imgHeic [1, 2]).original_size : ℚ)) * 100) 1 :=
  compression_ratio_formula envOk none imgHeic none true (successBody imgHeic [1, 2])
    (by decide)

/-- C8: the health endpoint always answers HTTP 200; it reports
capabilities.avifenc true exactly when the `avifenc --version` probe
completed with exit code 0 within the timeout, and the status is
"unhealthy" exactly when that capability is false, "healthy" exactly
otherwise. -/
theorem health_always_200_and_capability (probe : CallResult) :
    (health_check probe).1 = 200
    ∧ ((health_check probe).2.capabilities.avifenc = true
        ↔ ∃ stderr out, probe = .ret 0 stderr out)
    ∧ ((health_check probe).2.status = "unhealthy"
        ↔ (health_check probe).2.capabilities.avifenc = false)
    ∧ ((health_check probe).2.status = "healthy"
        ↔ (health_check probe).2.capabilities.avifenc = true) := by
  unfold health_check
  cases probe with
  | exn m => simp
  | ret code stderr out =>
      by_cases hc : code = 0
      · subst hc
        simp
      · simp [hc]

/-- C8 witness: with the probe raising (absent binary or timeout), the
health endpoint still answers 200 and reports the unhealthy status. -/
theorem health_always_200_and_capability_witness :
    (health_check (.exn "no avifenc")).1 = 200
    ∧ (health_check (.exn "no avifenc")).2.status = "unhealthy" :=
  ⟨(health_always_200_and_capability (.exn "no avifenc")).1,
   ((health_always_200_and_capability (.exn "no avifenc")).2.2.1).mpr (by decide)⟩

/-- C9: the outcome of the callback send never changes the HTTP response
or the callback payloads of the request; and when conversion fails on a
validated, size-accepted request, the single callback posted carries
success = false with the error text, while the caller still receives the
500. -/
theorem callback_failure_invisible (env : Env) (maxEnv : Option Nat)
    (image : UploadFile) (orig : Option String) :
    (∀ cb1 cb2 : Bool,
        (convert_image env maxEnv image orig cb1).resp
          = (convert_image env maxEnv image orig cb2).resp
        ∧ (convert_image env maxEnv image orig cb1).callbacks
          = (convert_image env maxEnv image orig cb2).callbacks)
    ∧ (∀ (cb : Bool) (e : String),
        (convert_heic_to_avif_variants env image.data (convFilename orig image)).outcome
            = .error e →
        heicTypeOk image orig = true →
        heicSizeMb image ≤ ((maxEnv.getD 100 : Nat) : ℚ) →
        (convert_image env maxEnv image orig cb).resp
          = .httpError 500 ("Conversion failed: " ++ e)
        ∧ (convert_image env maxEnv image orig cb).callbacks
            = [{ originalFilename := convFilename orig image, convertedFilename := none,
                 success := false, fileSize := none, originalSize := none,
                 compressionRatio := none, error := some e }]) := by
  refine ⟨fun cb1 cb2 => ⟨rfl, rfl⟩, ?_⟩
  intro cb e herr hty hsz
  exact convert_image_error env maxEnv image orig cb e hty hsz herr

/-- C9 witness: with every strategy failing and the callback send itself
failing, the caller still receives the 500 and the posted callback
carries success = false. -/
theorem callback_failure_invisible_witness :
    (convert_image envAllFail none imgHeic none false).resp
      = .httpError 500
          "Conversion failed: All conversion methods failed. Last error: ImageMagick conversion failed: E"
    ∧ (convert_image envAllFail none imgHeic none false).callbacks
        = [{ originalFilename := "a.heic", convertedFilename := none,
             success := false, fileSize := none, originalSize := none,
             compressionRatio := none, error :=
               some "All conversion methods failed. Last error: ImageMagick conversion failed: E" }] :=
  (callback_failure_invisible envAllFail none imgHeic none).2 false
    "All conversion methods failed. Last error: ImageMagick conversion failed: E"
    (by decide) (by decide) (by decide)

/-- C10: the HEIC/HEIF validation is evaluated before the size limit: an
upload failing validation receives 400 and never 413, no matter its size;
and a 413 response implies the request had passed validation. -/
theorem validation_precedes_size_check (env : Env) (maxEnv : Option Nat)
    (image : UploadFile) (orig : Option String) (cb : Bool) :
    (heicTypeOk image orig = false →
        (convert_image env maxEnv image orig cb).resp
          = .httpError 400 "Only HEIC/HEIF images are supported."
        ∧ ∀ s, (convert_image env maxEnv image orig cb).resp ≠ .httpError 413 s)
    ∧ (∀ s, (convert_image env maxEnv image orig cb).resp = .httpError 413 s →
        heicTypeOk image orig = true) := by
  constructor
  · intro hty
    have hi := (convert_resp_invalid env maxEnv image orig cb hty).1
    refine ⟨hi, fun s h => ?_⟩
    rw [hi] at h
    have := (Resp.httpError.injEq _ _ _ _).mp h
    omega
  · intro s h413
    by_cases hty : heicTypeOk image orig
    · exact hty
    · exfalso
      have hi := (convert_resp_invalid env maxEnv image orig cb (by simpa using hty)).1
      rw [hi] at h413
      have := (Resp.httpError.injEq _ _ _ _).mp h413
      omega

/-- C10 witness: an invalid upload under a zero size limit still receives
400, not 413. -/
theorem validation_precedes_size_check_witness :
    (convert_image envAllFail (some 0) imgPng none true).resp
      = .httpError 400 "Only HEIC/HEIF images are supported."
    ∧ (convert_image envAllFail (some 0) imgPng none true).resp
        ≠ .httpError 413 "File too large" :=
  ⟨((validation_precedes_size_check envAllFail (some 0) imgPng none true).1 (by decide)).1,
   ((validation_precedes_size_check envAllFail (some 0) imgPng none true).1 (by decide)).2
     "File too large"⟩


end Heic2Avif
